import Mathlib

/-!
Verification development for the analytics_engine repository: a shallow
embedding of the event-ingestion and analytics-query pipeline
(credential validation, user-agent enrichment, event write path with
cache invalidation, cache-aside aggregation, fixed-window rate limiting)
together with theorems settling the specification's claims.
-/

namespace AnalyticsEngine

/-! ## String helpers (JavaScript semantics) -/

/-- Whether `pat` occurs at the head of `s` (character-list version). -/
def matchHead : List Char → List Char → Bool
  | [], _ => true
  | _ :: _, [] => false
  | p :: ps, c :: cs => p == c && matchHead ps cs

/-- Whether `pat` occurs contiguously anywhere inside `s`. -/
def containsList (s pat : List Char) : Bool :=
  match s with
  | [] => pat.isEmpty
  | _ :: cs => matchHead pat s || containsList cs pat

/-- Embedding of JavaScript `String.prototype.includes`: `pat` occurs as a
contiguous substring of `s`. -/
def strIncludes (s pat : String) : Bool :=
  containsList s.data pat.data

/-- Embedding of JavaScript `String.prototype.toLowerCase` for the ASCII
signatures the rule table matches on (character-wise lowering). -/
def toLowerStr (s : String) : String :=
  ⟨s.data.map Char.toLower⟩

/-- Embedding of JavaScript string truthiness for optional strings: `undefined`
and the empty string are falsy. -/
def jsTruthy : Option String → Bool
  | none => false
  | some s => !(s == "")

/-- JavaScript `a || b` over optional strings (`a` falsy falls through). -/
def jsOrElse (a : Option String) (b : Option String) : Option String :=
  if jsTruthy a then a else b

/-! ## Context enrichment: `src/utils/userAgent.ts` -/

/-- Result record of `parseUserAgent`. -/
structure ParsedUserAgent where
  browser : String
  os : String
  device : String
deriving Repr, DecidableEq

/-- Embedding of `parseUserAgent` from `src/utils/userAgent.ts`: ordered
case-insensitive substring rules for browser, OS and device class. -/
def parseUserAgent (userAgent : String) : ParsedUserAgent :=
  let ua := toLowerStr userAgent
  let browser :=
    if strIncludes ua "chrome" && !(strIncludes ua "edg") then "Chrome"
    else if strIncludes ua "safari" && !(strIncludes ua "chrome") then "Safari"
    else if strIncludes ua "firefox" then "Firefox"
    else if strIncludes ua "edg" then "Edge"
    else if strIncludes ua "opera" || strIncludes ua "opr" then "Opera"
    else "Unknown"
  let os :=
    if strIncludes ua "windows" then "Windows"
    else if strIncludes ua "mac" then "macOS"
    else if strIncludes ua "linux" then "Linux"
    else if strIncludes ua "android" then "Android"
    else if strIncludes ua "ios" || strIncludes ua "iphone" || strIncludes ua "ipad" then "iOS"
    else "Unknown"
  let device :=
    if strIncludes ua "mobile" || strIncludes ua "android" then "mobile"
    else if strIncludes ua "tablet" || strIncludes ua "ipad" then "tablet"
    else "desktop"
  { browser := browser, os := os, device := device }

/-! ## Data model: `src/database/schema.sql` -/

/-- Row of the `users` table (fields the core reads). -/
structure UserRow where
  id : String
  email : String
deriving Repr, DecidableEq

/-- Row of the `api_keys` table (a Credential). `expires_at` is an absolute
timestamp; `none` means no expiry. -/
structure ApiKey where
  id : String
  user_id : String
  api_key : String
  is_active : Bool
  expires_at : Option Nat
deriving Repr, DecidableEq

/-- Row of the `events` table (fields the analytics queries read). -/
structure Event where
  api_key_id : String
  event_name : String
  url : Option String
  referrer : Option String
  device : Option String
  ip_address : Option String
  browser : Option String
  os : Option String
  user_id : Option String
  timestamp : Nat
deriving Repr, DecidableEq

/-- The relational store visible to this core. -/
structure Database where
  users : List UserRow
  api_keys : List ApiKey
  events : List Event
deriving Repr, DecidableEq

/-! ## Credential validation: `src/middleware/auth.ts` -/

/-- The SQL validity filter of `validateApiKey`:
`is_active = true AND (expires_at IS NULL OR expires_at > CURRENT_TIMESTAMP)`. -/
def credentialUsable (now : Nat) (k : ApiKey) : Bool :=
  k.is_active &&
    (match k.expires_at with
     | none => true
     | some e => decide (now < e))

/-- The lookup query of `validateApiKey` and `optionalApiKey`: exact secret
match, validity filter, inner join with the owning `users` row. Returns the
first matching row. -/
def lookupApiKey (db : Database) (now : Nat) (secret : String) : Option ApiKey :=
  db.api_keys.find? (fun k =>
    k.api_key == secret && credentialUsable now k &&
      (db.users.any (fun u => u.id == k.user_id)))

/-- Outcome of the `validateApiKey` middleware. -/
inductive AuthResult where
  | missingKey
  | invalidKey
  | ok (k : ApiKey)
deriving Repr, DecidableEq

/-- An externally visible error response (status code and message body). -/
structure ErrorResponse where
  status : Nat
  message : String
deriving Repr, DecidableEq

/-- Embedding of the `validateApiKey` middleware decision: missing header is
rejected before the lookup; a failed lookup is rejected; a hit attaches the
credential and proceeds. -/
def validateApiKey (db : Database) (now : Nat) (header : Option String) : AuthResult :=
  if !(jsTruthy header) then .missingKey
  else
    match lookupApiKey db now (header.getD "") with
    | none => .invalidKey
    | some k => .ok k

/-- The error response each `validateApiKey` rejection branch sends
(`some` on rejection, `none` when the request proceeds). -/
def authFailureResponse : AuthResult → Option ErrorResponse
  | .missingKey => some ⟨401, "API key is required. Please include X-API-Key header."⟩
  | .invalidKey => some ⟨401, "Invalid or expired API key."⟩
  | .ok _ => none

/-- Propositional form of the Credential usability invariant:
`active == true` and (`expiry == null` or `expiry > now`). -/
def UsableCred (now : Nat) (k : ApiKey) : Prop :=
  k.is_active = true ∧ (k.expires_at = none ∨ ∃ e, k.expires_at = some e ∧ now < e)

/-- Outcome record of the `optionalApiKey` middleware. -/
structure OptionalAuthOutcome where
  apiKeyData : Option ApiKey
  response : Option ErrorResponse
  proceeded : Bool
deriving Repr, DecidableEq

/-- Embedding of `optionalApiKey`: absent/empty header passes through; a
storage failure (`storageFails`) is caught, logged and passes through; a
lookup hit attaches the credential; in every case `next()` is called and no
response is written. -/
def optionalApiKey (db : Database) (now : Nat) (storageFails : Bool)
    (header : Option String) : OptionalAuthOutcome :=
  if !(jsTruthy header) then ⟨none, none, true⟩
  else if storageFails then ⟨none, none, true⟩
  else ⟨lookupApiKey db now (header.getD ""), none, true⟩

/-! ## Aggregate result shapes: `src/controllers/analyticsController.ts` -/

/-- The event-summary aggregate the controller serializes into the response
and into the cache. Grouped counts are association lists in JSON-object
insertion order. -/
structure SummaryData where
  event : String
  count : Nat
  uniqueUsers : Nat
  uniqueIps : Nat
  deviceData : List (String × Nat)
  browserData : List (String × Nat)
  osData : List (String × Nat)
deriving Repr, DecidableEq

/-- One element of the `recent_events` list of the user-statistics query. -/
structure RecentEvent where
  event_name : String
  timestamp : Nat
  url : Option String
deriving Repr, DecidableEq

/-- The user-statistics aggregate the controller serializes. -/
structure UserStatsData where
  userId : String
  totalEvents : Nat
  uniqueEvents : Nat
  deviceDetails : List (String × Nat)
  ipAddresses : List String
  lastEventAt : Nat
  firstEventAt : Nat
  recentEvents : List RecentEvent
deriving Repr, DecidableEq

/-- A value stored in the shared cache (serialization round-trips through
`JSON.stringify`/`JSON.parse` are content-preserving on these records, so the
cache stores the aggregate itself). -/
inductive CacheValue where
  | summary (d : SummaryData)
  | userStats (d : UserStatsData)
deriving Repr, DecidableEq

/-! ## Cache store: `src/config/redis.ts` -/

/-- One cache entry: key, value, absolute expiry instant (`setEx` TTL). -/
structure CacheEntry where
  key : String
  value : CacheValue
  expiresAt : Nat
deriving Repr, DecidableEq

/-- The cache state. -/
abbrev Cache : Type := List CacheEntry

/-- Redis glob matching as used by `KEYS pattern` (only `*` wildcards occur
in this codebase's patterns): `*` matches any character sequence, every
other pattern character matches itself. -/
def globMatch : List Char → List Char → Bool
  | [], ks => ks.isEmpty
  | p :: ps, ks =>
    if p = '*' then ks.tails.any (fun t => globMatch ps t)
    else
      match ks with
      | [] => false
      | k :: ks' => p == k && globMatch ps ks'

/-- Embedding of `cacheGet`: the stored value when the key is present and
unexpired at time `now`, otherwise a miss. -/
def cacheGet (cache : Cache) (now : Nat) (key : String) : Option CacheValue :=
  match cache.find? (fun e => e.key == key) with
  | some e => if now < e.expiresAt then some e.value else none
  | none => none

/-- Embedding of `cacheSet` (`setEx key ttl value`): overwrite the key with
expiry `now + ttl`. -/
def cacheSet (cache : Cache) (now : Nat) (key : String) (value : CacheValue)
    (ttl : Nat) : Cache :=
  ⟨key, value, now + ttl⟩ :: cache.filter (fun e => !(e.key == key))

/-- Embedding of `cacheDeletePattern`: delete every key matching the glob
pattern. -/
def cacheDeletePattern (cache : Cache) (pattern : String) : Cache :=
  cache.filter (fun e => !(globMatch pattern.data e.key.data))

/-! ## Event summary: `getEventSummary` in `analyticsController.ts` -/

/-- Optional query parameters of the summary endpoint. -/
structure SummaryQuery where
  event : String
  startDate : Option Nat
  endDate : Option Nat
  app_id : Option String
deriving Repr, DecidableEq

/-- String interpolation of an optional value in a cache key
(JavaScript template literal: `undefined` renders as "undefined"). -/
def renderOpt : Option String → String
  | none => "undefined"
  | some s => s

/-- The summary cache key:
`analytics:summary:EVENT:START:END:APP:USERID` with "all" defaults. -/
def summaryCacheKey (q : SummaryQuery) (userId : Option String) : String :=
  "analytics:summary:" ++ q.event ++ ":" ++
    (match q.startDate with | none => "all" | some s => toString s) ++ ":" ++
    (match q.endDate with | none => "all" | some e => toString e) ++ ":" ++
    (match q.app_id with | none => "all" | some a => a) ++ ":" ++
    renderOpt userId

/-- The WHERE filter of the summary aggregation query: event-name match,
inner join with `api_keys`, owner scope (`ak.user_id`), optional credential
scope (`ak.id`), optional date range. -/
def summaryRows (db : Database) (q : SummaryQuery) (userId : Option String) :
    List Event :=
  db.events.filter (fun e =>
    e.event_name == q.event &&
      (match db.api_keys.find? (fun ak => ak.id == e.api_key_id) with
       | none => false
       | some ak =>
         (match userId with | none => true | some u => ak.user_id == u) &&
         (match q.app_id with | none => true | some a => ak.id == a) &&
         (match q.startDate with | none => true | some s => decide (s ≤ e.timestamp)) &&
         (match q.endDate with | none => true | some d => decide (e.timestamp ≤ d))))

/-- SQL `COUNT(DISTINCT col)`: the number of distinct non-null values. -/
def distinctCount (l : List (Option String)) : Nat :=
  (l.filterMap id).dedup.length

/-- JSON-object aggregation semantics: duplicate keys keep their first
position, the last value wins (`json_object_agg` output parsed as a JS
object). -/
def objectAgg (pairs : List (String × Nat)) : List (String × Nat) :=
  pairs.foldl
    (fun acc p =>
      if acc.any (fun r => r.1 == p.1) then
        acc.map (fun r => if r.1 == p.1 then (r.1, p.2) else r)
      else acc ++ [p])
    []

/-- The `device_counts` lateral table: events of one credential with one
device value, counted over the whole table. -/
def deviceCount (db : Database) (akId : String) (d : String) : Nat :=
  (db.events.filter (fun e => e.api_key_id == akId && e.device == some d)).length

/-- The `browser_counts` table, analogous to `deviceCount`. -/
def browserCount (db : Database) (akId : String) (b : String) : Nat :=
  (db.events.filter (fun e => e.api_key_id == akId && e.browser == some b)).length

/-- The `os_counts` table, analogous to `deviceCount`. -/
def osCount (db : Database) (akId : String) (o : String) : Nat :=
  (db.events.filter (fun e => e.api_key_id == akId && e.os == some o)).length

/-- The computed (non-cached, non-empty) summary aggregate for the matching
rows: total count, distinct users/addresses, per-dimension grouped counts. -/
def computeSummary (db : Database) (q : SummaryQuery) (userId : Option String) :
    SummaryData :=
  let rows := summaryRows db q userId
  { event := q.event
    count := rows.length
    uniqueUsers := distinctCount (rows.map (fun e => e.user_id))
    uniqueIps := distinctCount (rows.map (fun e => e.ip_address))
    deviceData := objectAgg (rows.filterMap
      (fun e => e.device.map (fun d => (d, deviceCount db e.api_key_id d))))
    browserData := objectAgg (rows.filterMap
      (fun e => e.browser.map (fun b => (b, browserCount db e.api_key_id b))))
    osData := objectAgg (rows.filterMap
      (fun e => e.os.map (fun o => (o, osCount db e.api_key_id o)))) }

/-- The zero-valued summary returned when no row matches. -/
def zeroSummary (event : String) : SummaryData :=
  { event := event, count := 0, uniqueUsers := 0, uniqueIps := 0,
    deviceData := [], browserData := [], osData := [] }

/-- A response of the two analytics query endpoints. `cached` is the
`cached: true` tag (absent tags read as `false`). -/
structure QueryResponse where
  status : Nat
  success : Bool
  data : Option CacheValue
  cached : Bool
  message : Option String
deriving Repr, DecidableEq

/-- Embedding of `getEventSummary`: cache-aside lookup, zero-valued result
for no matching rows (not cached), otherwise compute, cache for 300 seconds
and return untagged. -/
def getEventSummary (db : Database) (cache : Cache) (now : Nat)
    (q : SummaryQuery) (userId : Option String) : QueryResponse × Cache :=
  let key := summaryCacheKey q userId
  match cacheGet cache now key with
  | some v => (⟨200, true, some v, true, none⟩, cache)
  | none =>
    let rows := summaryRows db q userId
    if rows.isEmpty then
      (⟨200, true, some (.summary (zeroSummary q.event)), false, none⟩, cache)
    else
      let d := computeSummary db q userId
      (⟨200, true, some (.summary d), false, none⟩, cacheSet cache now key (.summary d) 300)

/-! ## User statistics: `getUserStats` in `analyticsController.ts` -/

/-- Insertion of an event into a list sorted by descending timestamp
(`ORDER BY timestamp DESC`). -/
def insertDesc (x : Event) : List Event → List Event
  | [] => [x]
  | y :: ys => if y.timestamp < x.timestamp then x :: y :: ys else y :: insertDesc x ys

/-- Sort events by descending timestamp. -/
def sortDesc (l : List Event) : List Event :=
  l.foldr insertDesc []

/-- The base rows of the user-statistics query: events of the requested
end-user, joined with `api_keys` and scoped to the authenticated account
when one is present. -/
def userStatsRows (db : Database) (uid : String) (authUid : Option String) :
    List Event :=
  db.events.filter (fun e =>
    e.user_id == some uid &&
      (match db.api_keys.find? (fun ak => ak.id == e.api_key_id) with
       | none => false
       | some ak =>
         match authUid with | none => true | some u => ak.user_id == u))

/-- The `LEFT JOIN LATERAL` subquery `recent`: the ten most recent events
with the same end-user and credential as the outer row. -/
def recentList (db : Database) (e : Event) : List Event :=
  (sortDesc (db.events.filter (fun x =>
    x.user_id == e.user_id && x.api_key_id == e.api_key_id))).take 10

/-- The joined row set of the user-statistics query: each base row paired
with each of its lateral `recent` rows (`none` when the lateral set is
empty, per LEFT JOIN). -/
def userStatsJoined (db : Database) (uid : String) (authUid : Option String) :
    List (Event × Option Event) :=
  (userStatsRows db uid authUid).flatMap (fun e =>
    match recentList db e with
    | [] => [(e, none)]
    | l => l.map (fun r => (e, some r)))

/-- The `device_counts` table of the user-statistics query, grouped by
credential, end-user and device. -/
def userDeviceCount (db : Database) (akId : String) (uid : String) (d : String) :
    Nat :=
  (db.events.filter (fun e =>
    e.api_key_id == akId && e.user_id == some uid && e.device == some d)).length

/-- The computed user-statistics aggregate over the joined row set. -/
def computeUserStats (db : Database) (uid : String) (authUid : Option String) :
    UserStatsData :=
  let joined := userStatsJoined db uid authUid
  let baseTs := joined.map (fun p => p.1.timestamp)
  { userId := uid
    totalEvents := joined.length
    uniqueEvents := ((joined.map (fun p => p.1.event_name)).dedup).length
    deviceDetails := objectAgg (joined.filterMap
      (fun p => p.1.device.map (fun d => (d, userDeviceCount db p.1.api_key_id uid d))))
    ipAddresses := (joined.filterMap (fun p => p.1.ip_address)).dedup
    lastEventAt := baseTs.foldr Nat.max 0
    firstEventAt := match baseTs with
      | [] => 0
      | t :: ts => ts.foldr Nat.min t
    recentEvents := (sortDesc (joined.filterMap (fun p => p.2))).map
      (fun r => ⟨r.event_name, r.timestamp, r.url⟩) }

/-- The user-statistics cache key: `analytics:user:USERID:AUTHID`. -/
def userStatsCacheKey (uid : String) (authUid : Option String) : String :=
  "analytics:user:" ++ uid ++ ":" ++ renderOpt authUid

/-- Embedding of `getUserStats`: cache-aside lookup, 404 when no row
matches, otherwise compute, cache for 180 seconds and return untagged. -/
def getUserStats (db : Database) (cache : Cache) (now : Nat) (uid : String)
    (authUid : Option String) : QueryResponse × Cache :=
  let key := userStatsCacheKey uid authUid
  match cacheGet cache now key with
  | some v => (⟨200, true, some v, true, none⟩, cache)
  | none =>
    if (userStatsRows db uid authUid).isEmpty then
      (⟨404, false, none, false, some "User not found or no events tracked"⟩, cache)
    else
      let d := computeUserStats db uid authUid
      (⟨200, true, some (.userStats d), false, none⟩,
        cacheSet cache now key (.userStats d) 180)

/-! ## Event writer: `collectEvent` in `analyticsController.ts` -/

/-- The validated ingestion payload (schema `collectEvent` in
`src/middleware/validation.ts`). -/
structure EventPayload where
  event : String
  url : Option String
  referrer : Option String
  device : Option String
  ipAddress : Option String
  timestamp : Option Nat
  user_id : Option String
deriving Repr, DecidableEq

/-- Combined database-plus-cache state threaded through the write path. -/
structure SysState where
  db : Database
  cache : Cache
deriving Repr, DecidableEq

/-- The event row `collectEvent` inserts: client-supplied device/address win
over enrichment-derived values; timestamp defaults to receipt time. -/
def eventFromPayload (apiKeyId : String) (userAgent : String)
    (resolvedIp : String) (now : Nat) (p : EventPayload) : Event :=
  let parsed := parseUserAgent userAgent
  { api_key_id := apiKeyId
    event_name := p.event
    url := p.url
    referrer := p.referrer
    device := some ((jsOrElse p.device (some parsed.device)).getD "")
    ip_address := some ((jsOrElse p.ipAddress (some resolvedIp)).getD "")
    browser := some parsed.browser
    os := some parsed.os
    user_id := p.user_id
    timestamp := p.timestamp.getD now }

/-- Response of a successful event write (201 with the new row's identity). -/
structure CollectResponse where
  status : Nat
  success : Bool
deriving Repr, DecidableEq

/-- The glob pattern `collectEvent` passes to `cacheDeletePattern` after a
successful insert: `analytics:APIKEYID:*`. -/
def collectInvalidationPattern (apiKeyId : String) : String :=
  "analytics:" ++ apiKeyId ++ ":*"

/-- Embedding of `collectEvent` under a validated credential: insert one
event row, then fire-and-forget delete of cache keys matching
`analytics:APIKEYID:*`. -/
def collectEvent (st : SysState) (apiKeyId : String) (userAgent : String)
    (resolvedIp : String) (now : Nat) (p : EventPayload) :
    SysState × CollectResponse :=
  let ev := eventFromPayload apiKeyId userAgent resolvedIp now p
  let db' : Database := { st.db with events := st.db.events ++ [ev] }
  let cache' := cacheDeletePattern st.cache (collectInvalidationPattern apiKeyId)
  (⟨db', cache'⟩, ⟨201, true⟩)

/-! ## Ingestion throttle: `eventCollectionLimiter` in
`src/middleware/rateLimiter.ts` -/

/-- Window length of the ingestion limiter (60 seconds, in milliseconds). -/
def eventWindowMs : Nat := 60000

/-- Request budget of the ingestion limiter per window. -/
def eventMaxRequests : Nat := 1000

/-- The limiter's key generator: the `x-api-key` header, falling back to the
request address, falling back to the literal "unknown". -/
def rateLimitKey (apiKeyHeader ip : Option String) : String :=
  (jsOrElse apiKeyHeader (jsOrElse ip (some "unknown"))).getD "unknown"

/-- Modelled from the spec: the fixed-window counter store of the
`express-rate-limit` dependency (not part of this repository's sources) —
"a fixed-window counter keyed by an identity string", with a hard counter
reset when the window elapses; windows are indexed by `time / windowMs`. -/
structure LimiterState where
  window : Nat
  counts : List (String × Nat)
deriving Repr, DecidableEq

/-- Current hit count recorded for a key. -/
def getCount (counts : List (String × Nat)) (k : String) : Nat :=
  match counts.find? (fun p => p.1 == k) with
  | some p => p.2
  | none => 0

/-- Record a new hit count for a key. -/
def setCount (counts : List (String × Nat)) (k : String) (n : Nat) :
    List (String × Nat) :=
  (k, n) :: counts.filter (fun p => !(p.1 == k))

/-- Modelled from the spec: one limiter step — reset counters when the
window has rolled over, atomically increment-and-check the key's counter,
admit while the count stays within the budget. -/
def limiterStep (st : LimiterState) (k : String) (t : Nat) : LimiterState × Bool :=
  let w := t / eventWindowMs
  let counts := if w == st.window then st.counts else []
  let hits := getCount counts k + 1
  (⟨w, setCount counts k hits⟩, decide (hits ≤ eventMaxRequests))

/-- The 429 response body of the ingestion limiter. -/
def rateLimitedResponse : ErrorResponse :=
  ⟨429, "Event collection rate limit exceeded."⟩

/-- The ingestion limiter middleware: on an admitted request the pipeline
advances (`none`); on an over-budget request it responds 429 and does not
advance. -/
def eventCollectionLimiter (st : LimiterState) (apiKeyHeader ip : Option String)
    (t : Nat) : LimiterState × Option ErrorResponse :=
  let (st', admitted) := limiterStep st (rateLimitKey apiKeyHeader ip) t
  (st', if admitted then none else some rateLimitedResponse)

/-- Run a sequence of limiter requests with one key, collecting each
request's response (`none` means admitted to downstream components). -/
def runLimiter (st : LimiterState) (k : String) :
    List Nat → LimiterState × List (Option ErrorResponse)
  | [] => (st, [])
  | t :: ts =>
    let (st', admitted) := limiterStep st k t
    let (stFinal, rest) := runLimiter st' k ts
    (stFinal, (if admitted then none else some rateLimitedResponse) :: rest)

/-- Fold of the write path over a list of validated payloads (the state after
ingesting each payload in order under one credential). -/
def writeAll (st : SysState) (akId userAgent resolvedIp : String) (now : Nat)
    (ps : List EventPayload) : SysState :=
  ps.foldl (fun s p => (collectEvent s akId userAgent resolvedIp now p).1) st

/-! ## Concrete fixtures used by counterexamples and witnesses -/

/-- A registered account. -/
def sampleUser : UserRow := ⟨"u1", "owner@example.com"⟩

/-- An active, non-expiring credential of `sampleUser`. -/
def sampleKey : ApiKey := ⟨"k1", "u1", "a1b2c3", true, none⟩

/-- A stored click event of end-user `e1` under `sampleKey`. -/
def sampleEvent : Event :=
  ⟨"k1", "click", none, none, some "mobile", some "1.1.1.1",
    some "Chrome", some "Android", some "e1", 10⟩

/-- A second stored event of the same end-user under `sampleKey`. -/
def sampleEvent2 : Event :=
  ⟨"k1", "signup", none, none, some "desktop", some "2.2.2.2",
    some "Chrome", some "Linux", some "e1", 20⟩

/-- Database with one account, one credential, one event. -/
def sampleDb : Database := ⟨[sampleUser], [sampleKey], [sampleEvent]⟩

/-- Database with one account, one credential and two events of end-user
`e1`. -/
def sampleDb2 : Database := ⟨[sampleUser], [sampleKey], [sampleEvent, sampleEvent2]⟩

/-- Database with one account, one inactive credential, no events. -/
def inactiveDb : Database :=
  ⟨[sampleUser], [⟨"k1", "u1", "inactive-secret", false, none⟩], []⟩

/-- Database with one account, one credential, no events. -/
def emptyEventsDb : Database := ⟨[sampleUser], [sampleKey], []⟩

/-- The summary query for event name `click` with no optional filters. -/
def clickQuery : SummaryQuery := ⟨"click", none, none, none⟩

/-- A second click payload from end-user `e2` used to exercise the write
path's cache invalidation. -/
def clickPayload : EventPayload :=
  ⟨"click", none, none, some "desktop", some "2.2.2.2", some 20, some "e2"⟩

/-- State after priming the summary cache on `sampleDb` at time 100 and then
writing `clickPayload` under credential `k1` at time 200. -/
def stateAfterWrite : SysState :=
  (collectEvent ⟨sampleDb, (getEventSummary sampleDb [] 100 clickQuery (some "u1")).2⟩
    "k1" "some-agent" "9.9.9.9" 200 clickPayload).1

/-- Database with four events of end-user `e1` under one credential. -/
def sampleDb4 : Database :=
  ⟨[sampleUser], [sampleKey],
    [sampleEvent, sampleEvent2,
      ⟨"k1", "view", none, none, some "mobile", some "1.1.1.1",
        some "Chrome", some "Android", some "e1", 30⟩,
      ⟨"k1", "purchase", none, none, some "mobile", some "1.1.1.1",
        some "Chrome", some "Android", some "e1", 40⟩]⟩

/-! ## Helper lemmas -/

/-- The SQL validity filter decides exactly the usability invariant. -/
theorem usableCred_iff (now : Nat) (k : ApiKey) :
    UsableCred now k ↔ credentialUsable now k = true := by
  unfold UsableCred credentialUsable
  cases h : k.expires_at <;> simp [h]

/-- A `lookupApiKey` hit lies in the table, matches the secret and is
usable. -/
theorem lookupApiKey_eq_some (db : Database) (now : Nat) (secret : String)
    (k : ApiKey) (h : lookupApiKey db now secret = some k) :
    k ∈ db.api_keys ∧ k.api_key = secret ∧ UsableCred now k := by
  unfold lookupApiKey at h
  have hp := List.find?_some h
  simp only [Bool.and_eq_true, beq_iff_eq] at hp
  exact ⟨List.mem_of_find?_eq_some h, hp.1.1, (usableCred_iff now k).mpr hp.1.2⟩

/-- Referential integrity makes `lookupApiKey` complete: a usable matching
credential in the table is found. -/
theorem lookupApiKey_isSome (db : Database) (now : Nat) (secret : String)
    (hfk : ∀ k ∈ db.api_keys, ∃ u ∈ db.users, u.id = k.user_id)
    (h : ∃ k ∈ db.api_keys, k.api_key = secret ∧ UsableCred now k) :
    ∃ k, lookupApiKey db now secret = some k := by
  obtain ⟨k, hk, he, hu⟩ := h
  rw [← Option.isSome_iff_exists]
  unfold lookupApiKey
  rw [List.find?_isSome]
  refine ⟨k, hk, ?_⟩
  simp only [Bool.and_eq_true, beq_iff_eq]
  obtain ⟨u, hum, hui⟩ := hfk k hk
  exact ⟨⟨he, (usableCred_iff now k).mp hu⟩,
    List.any_eq_true.mpr ⟨u, hum, by simp [hui]⟩⟩

/-- Without a usable matching credential, `lookupApiKey` misses. -/
theorem lookupApiKey_eq_none (db : Database) (now : Nat) (secret : String)
    (h : ∀ k ∈ db.api_keys, ¬(k.api_key = secret ∧ UsableCred now k)) :
    lookupApiKey db now secret = none := by
  unfold lookupApiKey
  rw [List.find?_eq_none]
  intro k hk hp
  simp only [Bool.and_eq_true, beq_iff_eq] at hp
  exact h k hk ⟨hp.1.1, (usableCred_iff now k).mpr hp.1.2⟩

/-- With a nonempty secret, `validateApiKey` reduces to the lookup. -/
theorem validateApiKey_of_ne (db : Database) (now : Nat) (secret : String)
    (hs : secret ≠ "") :
    validateApiKey db now (some secret) =
      (match lookupApiKey db now secret with
       | none => AuthResult.invalidKey
       | some k => AuthResult.ok k) := by
  unfold validateApiKey
  simp [jsTruthy, hs]

/-- Reading back the key just set, before its expiry, yields the value. -/
theorem cacheGet_cacheSet_hit (cache : Cache) (tset tget : Nat) (key : String)
    (v : CacheValue) (ttl : Nat) (h : tget < tset + ttl) :
    cacheGet (cacheSet cache tset key v ttl) tget key = some v := by
  unfold cacheGet cacheSet
  rw [List.find?_cons_of_pos _ (by simp)]
  simp [h]

/-- Reading a key back right after recording its count. -/
theorem getCount_setCount (counts : List (String × Nat)) (k : String) (n : Nat) :
    getCount (setCount counts k n) k = n := by
  unfold getCount setCount
  rw [List.find?_cons_of_pos _ (by simp)]

/-! ## C7: Edge/Chrome rule precedence in `parseUserAgent` -/

/-- C7 counterexample: the signature "chrome edg firefox" contains both the
"chrome" and "edg" tokens, yet the derived browser is Firefox, not Edge —
the claim "derives the browser Edge" fails as stated (the Firefox rule is
checked before the Edge rule). -/
theorem parseUserAgent_both_tokens_firefox :
    strIncludes (toLowerStr "chrome edg firefox") "chrome" = true ∧
    strIncludes (toLowerStr "chrome edg firefox") "edg" = true ∧
    (parseUserAgent "chrome edg firefox").browser = "Firefox" ∧
    (parseUserAgent "chrome edg firefox").browser ≠ "Edge" := by decide

/-- C7 (amended): for every signature containing both the "chrome" and
"edg" tokens (case-insensitive), the derived browser is never Chrome, and
it is Edge whenever the signature does not also contain the "firefox"
token. -/
theorem parseUserAgent_edge_precedence (ua : String)
    (hc : strIncludes (toLowerStr ua) "chrome" = true)
    (he : strIncludes (toLowerStr ua) "edg" = true) :
    (parseUserAgent ua).browser ≠ "Chrome" ∧
      (strIncludes (toLowerStr ua) "firefox" = false →
        (parseUserAgent ua).browser = "Edge") := by
  cases hf : strIncludes (toLowerStr ua) "firefox" <;>
    simp [parseUserAgent, hc, he, hf]

/-- C7 witness: the signature "Chrome Edg" satisfies both token hypotheses
and classifies as Edge. -/
theorem parseUserAgent_edge_precedence_witness :
    (parseUserAgent "Chrome Edg").browser ≠ "Chrome" ∧
      (parseUserAgent "Chrome Edg").browser = "Edge" := by
  have h := parseUserAgent_edge_precedence "Chrome Edg" (by decide) (by decide)
  exact ⟨h.1, h.2 (by decide)⟩

/-! ## C4: uniformity of rejection responses in `validateApiKey` -/

/-- C4 counterexample: an absent header and an inactive credential are both
rejected with status 401, but with two different messages — the claim of
"one identical message" across all three rejection causes fails as
stated. -/
theorem auth_rejection_messages_differ :
    authFailureResponse (validateApiKey inactiveDb 50 none) =
        some ⟨401, "API key is required. Please include X-API-Key header."⟩ ∧
      authFailureResponse (validateApiKey inactiveDb 50 (some "inactive-secret")) =
        some ⟨401, "Invalid or expired API key."⟩ ∧
      ("API key is required. Please include X-API-Key header." ≠
        "Invalid or expired API key.") := by decide

/-- C4 (amended): every rejected request gets status 401; every rejection
reached through the credential lookup — unknown secret, inactive
credential, past expiry, or any mix — yields one identical response that
does not reveal which of those conditions failed; the absent-header case
is 401 with its own distinct fixed message. -/
theorem auth_lookup_failures_uniform (db : Database) (now : Nat)
    (s1 s2 : String) (hs1 : s1 ≠ "") (hs2 : s2 ≠ "")
    (h1 : ∀ k ∈ db.api_keys, ¬(k.api_key = s1 ∧ UsableCred now k))
    (h2 : ∀ k ∈ db.api_keys, ¬(k.api_key = s2 ∧ UsableCred now k)) :
    authFailureResponse (validateApiKey db now (some s1)) =
        authFailureResponse (validateApiKey db now (some s2)) ∧
      authFailureResponse (validateApiKey db now (some s1)) =
        some ⟨401, "Invalid or expired API key."⟩ ∧
      (authFailureResponse (validateApiKey db now none)).map ErrorResponse.status =
        some 401 := by
  have e1 : validateApiKey db now (some s1) = .invalidKey := by
    rw [validateApiKey_of_ne db now s1 hs1, lookupApiKey_eq_none db now s1 h1]
  have e2 : validateApiKey db now (some s2) = .invalidKey := by
    rw [validateApiKey_of_ne db now s2 hs2, lookupApiKey_eq_none db now s2 h2]
  refine ⟨?_, ?_, ?_⟩
  · rw [e1, e2]
  · rw [e1]; rfl
  · simp [validateApiKey, jsTruthy, authFailureResponse]

/-- C4 witness: in a store holding one inactive and one expired credential
at time 50, the two corresponding rejections coincide and carry 401, and
the absent-header rejection carries 401. -/
theorem auth_lookup_failures_uniform_witness :
    authFailureResponse (validateApiKey
        ⟨[⟨"u1", "owner@example.com"⟩],
          [⟨"k1", "u1", "inactive-secret", false, none⟩,
            ⟨"k2", "u1", "expired-secret", true, some 40⟩], []⟩ 50
        (some "inactive-secret")) =
      authFailureResponse (validateApiKey
        ⟨[⟨"u1", "owner@example.com"⟩],
          [⟨"k1", "u1", "inactive-secret", false, none⟩,
            ⟨"k2", "u1", "expired-secret", true, some 40⟩], []⟩ 50
        (some "expired-secret")) := by
  refine (auth_lookup_failures_uniform
      ⟨[⟨"u1", "owner@example.com"⟩],
        [⟨"k1", "u1", "inactive-secret", false, none⟩,
          ⟨"k2", "u1", "expired-secret", true, some 40⟩], []⟩ 50
      "inactive-secret" "expired-secret" (by decide) (by decide) ?_ ?_).1
  · intro k hk hcl
    have hu := (usableCred_iff 50 k).mp hcl.2
    rcases hcl with ⟨heq, -⟩
    simp only [List.mem_cons, List.not_mem_nil, or_false] at hk
    rcases hk with rfl | rfl
    · exact absurd hu (by decide)
    · exact absurd heq (by decide)
  · intro k hk hcl
    have hu := (usableCred_iff 50 k).mp hcl.2
    rcases hcl with ⟨heq, -⟩
    simp only [List.mem_cons, List.not_mem_nil, or_false] at hk
    rcases hk with rfl | rfl
    · exact absurd heq (by decide)
    · exact absurd hu (by decide)

/-! ## C10: `optionalApiKey` absorbs every failure -/

/-- C10: the optional mode never writes a response, always proceeds to the
next handler, and attaches no identity when the lookup fails from a storage
error or the header is absent. -/
theorem optionalApiKey_never_rejects (db : Database) (now : Nat)
    (storageFails : Bool) (header : Option String) :
    (optionalApiKey db now storageFails header).response = none ∧
      (optionalApiKey db now storageFails header).proceeded = true ∧
      (storageFails = true →
        (optionalApiKey db now storageFails header).apiKeyData = none) ∧
      (header = none →
        (optionalApiKey db now storageFails header).apiKeyData = none) := by
  unfold optionalApiKey
  cases header with
  | none => simp [jsTruthy]
  | some s =>
    cases storageFails <;> by_cases hs : s = "" <;>
      simp [jsTruthy, hs]

/-- C10 witness: with a failing store and a well-formed header, the
middleware proceeds with no response and no identity. -/
theorem optionalApiKey_never_rejects_witness :
    (optionalApiKey sampleDb 0 true (some "a1b2c3")).response = none ∧
      (optionalApiKey sampleDb 0 true (some "a1b2c3")).proceeded = true ∧
      (optionalApiKey sampleDb 0 true (some "a1b2c3")).apiKeyData = none := by
  have h := optionalApiKey_never_rejects sampleDb 0 true (some "a1b2c3")
  exact ⟨h.1, h.2.1, h.2.2.1 rfl⟩

/-! ## C1: write-path cache invalidation versus the summary key namespace -/

/-- C1: the write-path delete pattern `analytics:k1:*` does not cover the
summary cache namespace `analytics:summary:...`. After priming the cache
and writing a second click event under the same credential, the cached
summary key survives the invalidation, the next read is served from cache
(`cached = true`) with the stale count 1, while a fresh computation over
the store finds 2 matching rows. -/
theorem collectEvent_invalidation_misses_summary_cache :
    stateAfterWrite.cache.map CacheEntry.key =
        ["analytics:summary:click:all:all:all:u1"] ∧
      globMatch (collectInvalidationPattern "k1").data
        "analytics:summary:click:all:all:all:u1".data = false ∧
      ((getEventSummary stateAfterWrite.db stateAfterWrite.cache 250
          clickQuery (some "u1")).1).cached = true ∧
      ((getEventSummary stateAfterWrite.db stateAfterWrite.cache 250
          clickQuery (some "u1")).1).data =
        some (.summary ⟨"click", 1, 1, 1, [("mobile", 1)], [("Chrome", 1)],
          [("Android", 1)]⟩) ∧
      (summaryRows stateAfterWrite.db clickQuery (some "u1")).length = 2 := by
  decide

/-! ## C5: lateral-join fanout in `getUserStats` -/

/-- C5: with four events of one end-user under one credential, the
user-statistics scope holds 4 events, but the lateral `recent` join
multiplies the row set: the reported `totalEvents` is 16 and the
`recentEvents` list carries 16 entries — more than the 10 most recent —
contradicting the claimed per-user totals. -/
theorem getUserStats_lateral_join_fanout :
    (userStatsRows sampleDb4 "e1" (some "u1")).length = 4 ∧
      ((getUserStats sampleDb4 [] 0 "e1" (some "u1")).1).data =
        some (.userStats (computeUserStats sampleDb4 "e1" (some "u1"))) ∧
      (computeUserStats sampleDb4 "e1" (some "u1")).totalEvents = 16 ∧
      (computeUserStats sampleDb4 "e1" (some "u1")).recentEvents.length = 16 := by
  decide

/-! ## C9: repeated identical summary queries within the TTL -/

/-- C9 counterexample: a summary query with zero matching rows is never
written to the cache, so repeating the identical query within the TTL
window with no intervening writes still answers without the `cached=true`
tag — the claim fails as stated for zero-row queries. -/
theorem summary_repeat_zero_rows_not_cached :
    ((getEventSummary emptyEventsDb [] 0 clickQuery (some "u1")).1).status = 200 ∧
      (1 < 0 + 300) ∧
      ((getEventSummary emptyEventsDb
          ((getEventSummary emptyEventsDb [] 0 clickQuery (some "u1")).2)
          1 clickQuery (some "u1")).1).cached = false := by
  decide

/-! ## C2: `validateApiKey` accepts exactly the usable credentials -/

/-- C2: with a secret present (and the schema's foreign key from
credentials to accounts), the Validator accepts exactly the stored
credentials whose secret matches with `active == true` and
(`expiry == null` or `expiry > now`); every other secret is rejected with
the 401 invalid-or-expired response. -/
theorem validateApiKey_accepts_exactly_usable (db : Database) (now : Nat)
    (secret : String) (hs : secret ≠ "")
    (hfk : ∀ k ∈ db.api_keys, ∃ u ∈ db.users, u.id = k.user_id) :
    (∀ k, validateApiKey db now (some secret) = .ok k →
        k ∈ db.api_keys ∧ k.api_key = secret ∧ UsableCred now k) ∧
      ((∃ k ∈ db.api_keys, k.api_key = secret ∧ UsableCred now k) →
        ∃ k, validateApiKey db now (some secret) = .ok k) ∧
      ((∀ k ∈ db.api_keys, ¬(k.api_key = secret ∧ UsableCred now k)) →
        authFailureResponse (validateApiKey db now (some secret)) =
          some ⟨401, "Invalid or expired API key."⟩) := by
  refine ⟨?_, ?_, ?_⟩
  · intro k h
    rw [validateApiKey_of_ne db now secret hs] at h
    cases hl : lookupApiKey db now secret with
    | none => rw [hl] at h; exact absurd h (by simp)
    | some k' =>
      rw [hl] at h
      simp only [AuthResult.ok.injEq] at h
      exact h ▸ lookupApiKey_eq_some db now secret k' hl
  · intro h
    obtain ⟨k, hk⟩ := lookupApiKey_isSome db now secret hfk h
    exact ⟨k, by rw [validateApiKey_of_ne db now secret hs, hk]⟩
  · intro h
    rw [validateApiKey_of_ne db now secret hs,
      lookupApiKey_eq_none db now secret h]
    rfl

/-- C2 witness: in a store with one active non-expiring credential and one
expired one, the active secret is accepted and the expired secret is
rejected with the 401 invalid-or-expired response. -/
theorem validateApiKey_accepts_exactly_usable_witness :
    (∃ k, validateApiKey
        ⟨[⟨"u1", "owner@example.com"⟩],
          [⟨"k1", "u1", "good-secret", true, none⟩,
            ⟨"k2", "u1", "expired-secret", true, some 40⟩], []⟩ 50
        (some "good-secret") = .ok k) ∧
      authFailureResponse (validateApiKey
        ⟨[⟨"u1", "owner@example.com"⟩],
          [⟨"k1", "u1", "good-secret", true, none⟩,
            ⟨"k2", "u1", "expired-secret", true, some 40⟩], []⟩ 50
        (some "expired-secret")) =
        some ⟨401, "Invalid or expired API key."⟩ := by
  have hfk : ∀ k ∈ ([⟨"k1", "u1", "good-secret", true, none⟩,
      ⟨"k2", "u1", "expired-secret", true, some 40⟩] : List ApiKey),
      ∃ u ∈ ([⟨"u1", "owner@example.com"⟩] : List UserRow), u.id = k.user_id := by
    intro k hk
    simp only [List.mem_cons, List.not_mem_nil, or_false] at hk
    rcases hk with rfl | rfl <;> exact ⟨⟨"u1", "owner@example.com"⟩, by simp⟩
  constructor
  · exact (validateApiKey_accepts_exactly_usable _ 50 "good-secret"
      (by decide) hfk).2.1
      ⟨⟨"k1", "u1", "good-secret", true, none⟩, by simp,
        rfl, by decide, Or.inl rfl⟩
  · refine (validateApiKey_accepts_exactly_usable _ 50 "expired-secret"
      (by decide) hfk).2.2 ?_
    intro k hk hcl
    have hu := (usableCred_iff 50 k).mp hcl.2
    rcases hcl with ⟨heq, -⟩
    simp only [List.mem_cons, List.not_mem_nil, or_false] at hk
    rcases hk with rfl | rfl
    · exact absurd heq (by decide)
    · exact absurd hu (by decide)

/-! ## C8: zero-row behavior of the two query shapes -/

/-- C8: an event-summary query matching zero rows answers 200 with the
zero-valued aggregate (never an error), while a user-statistics query
matching zero rows answers 404. -/
theorem empty_scope_responses :
    (∀ (db : Database) (cache : Cache) (now : Nat) (q : SummaryQuery)
        (uid : Option String),
      cacheGet cache now (summaryCacheKey q uid) = none →
      summaryRows db q uid = [] →
      (getEventSummary db cache now q uid).1 =
        ⟨200, true, some (.summary (zeroSummary q.event)), false, none⟩) ∧
    (∀ (db : Database) (cache : Cache) (now : Nat) (uid : String)
        (auth : Option String),
      cacheGet cache now (userStatsCacheKey uid auth) = none →
      userStatsRows db uid auth = [] →
      (getUserStats db cache now uid auth).1 =
        ⟨404, false, none, false, some "User not found or no events tracked"⟩) := by
  constructor
  · intro db cache now q uid hmiss hrows
    simp [getEventSummary, hmiss, hrows]
  · intro db cache now uid auth hmiss hrows
    simp [getUserStats, hmiss, hrows]

/-- C8 witness: on a store with no events and an empty cache, the click
summary answers 200 with zero values and the user-statistics query answers
404. -/
theorem empty_scope_responses_witness :
    (getEventSummary emptyEventsDb [] 7 clickQuery (some "u1")).1 =
        ⟨200, true, some (.summary (zeroSummary "click")), false, none⟩ ∧
      (getUserStats emptyEventsDb [] 7 "nobody" (some "u1")).1 =
        ⟨404, false, none, false, some "User not found or no events tracked"⟩ := by
  exact ⟨empty_scope_responses.1 emptyEventsDb [] 7 clickQuery (some "u1") rfl rfl,
    empty_scope_responses.2 emptyEventsDb [] 7 "nobody" (some "u1") rfl rfl⟩

/-! ## C9: cache hit on an identical repeat within the TTL -/

/-- C9 (amended): for every summary query with at least one matching row,
first answered by a fresh compute, repeating the identical query (same
parameters and scoping identity) against the unchanged store within the
300-second TTL returns `cached = true` with aggregate content identical to
the original compute. -/
theorem summary_repeat_within_ttl (db : Database) (cache : Cache)
    (t1 t2 : Nat) (q : SummaryQuery) (uid : Option String)
    (hmiss : cacheGet cache t1 (summaryCacheKey q uid) = none)
    (hrows : summaryRows db q uid ≠ [])
    (httl : t2 < t1 + 300) :
    ((getEventSummary db (getEventSummary db cache t1 q uid).2 t2 q uid).1).cached
        = true ∧
      ((getEventSummary db (getEventSummary db cache t1 q uid).2 t2 q uid).1).data
        = ((getEventSummary db cache t1 q uid).1).data ∧
      ((getEventSummary db cache t1 q uid).1).cached = false := by
  have hne : (summaryRows db q uid).isEmpty = false := by
    cases h : summaryRows db q uid with
    | nil => exact absurd h hrows
    | cons a l => rfl
  have hfirst : getEventSummary db cache t1 q uid =
      (⟨200, true, some (.summary (computeSummary db q uid)), false, none⟩,
        cacheSet cache t1 (summaryCacheKey q uid)
          (.summary (computeSummary db q uid)) 300) := by
    simp [getEventSummary, hmiss, hne]
  have hhit := cacheGet_cacheSet_hit cache t1 t2 (summaryCacheKey q uid)
    (.summary (computeSummary db q uid)) 300 httl
  rw [hfirst]
  simp [getEventSummary, hhit]

/-- C9 witness: on the one-event store, a fresh click summary at time 0
repeated at time 1 is served from cache with identical content. -/
theorem summary_repeat_within_ttl_witness :
    ((getEventSummary sampleDb (getEventSummary sampleDb [] 0 clickQuery
        (some "u1")).2 1 clickQuery (some "u1")).1).cached = true ∧
      ((getEventSummary sampleDb (getEventSummary sampleDb [] 0 clickQuery
          (some "u1")).2 1 clickQuery (some "u1")).1).data =
        ((getEventSummary sampleDb [] 0 clickQuery (some "u1")).1).data := by
  have h := summary_repeat_within_ttl sampleDb [] 0 1 clickQuery (some "u1")
    rfl (by decide) (by decide)
  exact ⟨h.1, h.2.1⟩

/-! ## C3: N writes under one credential, then the summary -/

/-- Running the write path over a list of payloads appends exactly the
corresponding event rows and leaves an initially empty cache empty. -/
theorem writeAll_run (us : List UserRow) (ks : List ApiKey) (evs : List Event)
    (akId ua ip : String) (now : Nat) (ps : List EventPayload) :
    writeAll ⟨⟨us, ks, evs⟩, []⟩ akId ua ip now ps =
      ⟨⟨us, ks, evs ++ ps.map (eventFromPayload akId ua ip now)⟩, []⟩ := by
  induction ps generalizing evs with
  | nil => simp [writeAll]
  | cons p ps ih =>
    have hstep : (collectEvent ⟨⟨us, ks, evs⟩, []⟩ akId ua ip now p).1 =
        ⟨⟨us, ks, evs ++ [eventFromPayload akId ua ip now p]⟩, []⟩ := by
      simp [collectEvent, cacheDeletePattern]
    calc writeAll ⟨⟨us, ks, evs⟩, []⟩ akId ua ip now (p :: ps)
        = writeAll ⟨⟨us, ks, evs ++ [eventFromPayload akId ua ip now p]⟩, []⟩
            akId ua ip now ps := by
          simp only [writeAll, List.foldl_cons, hstep]
      _ = ⟨⟨us, ks, evs ++ (p :: ps).map (eventFromPayload akId ua ip now)⟩, []⟩ := by
          rw [ih]
          simp

/-- In a store whose events all come from payloads carrying the queried
event name under the sole credential of the querying account, the summary
WHERE filter keeps every row. -/
theorem summaryRows_all_match (u : UserRow) (ak : ApiKey)
    (ename ua ip : String) (now : Nat) (ps : List EventPayload)
    (hOwner : ak.user_id = u.id)
    (hAll : ∀ p ∈ ps, p.event = ename) :
    summaryRows ⟨[u], [ak], ps.map (eventFromPayload ak.id ua ip now)⟩
        ⟨ename, none, none, none⟩ (some u.id) =
      ps.map (eventFromPayload ak.id ua ip now) := by
  apply List.filter_eq_self.mpr
  intro e he
  obtain ⟨p, hp, rfl⟩ := List.mem_map.mp he
  simp [eventFromPayload, summaryRows, hAll p hp, hOwner, List.find?]

/-- C3: writing N validated payloads for one event name under one
credential of account `u` and then querying the summary for that event
name returns `count = N` and `uniqueUsers` equal to the number of distinct
non-null `user_id` values among the payloads. -/
theorem write_then_summary_counts (u : UserRow) (ak : ApiKey)
    (ename ua ip : String) (now tq : Nat) (ps : List EventPayload)
    (hOwner : ak.user_id = u.id)
    (hAll : ∀ p ∈ ps, p.event = ename) :
    ∃ d, ((getEventSummary
            (writeAll ⟨⟨[u], [ak], []⟩, []⟩ ak.id ua ip now ps).db
            (writeAll ⟨⟨[u], [ak], []⟩, []⟩ ak.id ua ip now ps).cache
            tq ⟨ename, none, none, none⟩ (some u.id)).1).data =
          some (.summary d) ∧
        d.count = ps.length ∧
        d.uniqueUsers = (ps.filterMap (fun p => p.user_id)).dedup.length := by
  rw [writeAll_run]
  have hrows := summaryRows_all_match u ak ename ua ip now ps hOwner hAll
  have husers :
      ((ps.map (eventFromPayload ak.id ua ip now)).map (fun e => e.user_id)).filterMap id
        = ps.filterMap (fun p => p.user_id) := by
    rw [List.map_map, List.filterMap_map]
    rfl
  cases hps : ps with
  | nil =>
    refine ⟨zeroSummary ename, ?_, by simp [zeroSummary], by simp [zeroSummary]⟩
    simp [getEventSummary, cacheGet, summaryRows]
  | cons p0 ps0 =>
    rw [← hps]
    have hnonempty :
        ((ps.map (eventFromPayload ak.id ua ip now)) : List Event).isEmpty = false := by
      rw [hps]; rfl
    refine ⟨computeSummary ⟨[u], [ak], ps.map (eventFromPayload ak.id ua ip now)⟩
        ⟨ename, none, none, none⟩ (some u.id), ?_, ?_, ?_⟩
    · simp [getEventSummary, cacheGet, hrows, hnonempty]
    · simp [computeSummary, hrows]
    · simp only [computeSummary, hrows, distinctCount, husers]

/-- C3 witness: two click payloads from one end-user give `count = 2` and
`uniqueUsers = 1`. -/
theorem write_then_summary_counts_witness :
    ∃ d, ((getEventSummary
            (writeAll ⟨⟨[sampleUser], [sampleKey], []⟩, []⟩ sampleKey.id
              "agent" "1.1.1.1" 5
              [⟨"click", none, none, none, none, none, some "e1"⟩,
                ⟨"click", none, none, none, none, none, some "e1"⟩]).db
            (writeAll ⟨⟨[sampleUser], [sampleKey], []⟩, []⟩ sampleKey.id
              "agent" "1.1.1.1" 5
              [⟨"click", none, none, none, none, none, some "e1"⟩,
                ⟨"click", none, none, none, none, none, some "e1"⟩]).cache
            9 ⟨"click", none, none, none⟩ (some sampleUser.id)).1).data =
          some (.summary d) ∧
        d.count = 2 ∧ d.uniqueUsers = 1 := by
  obtain ⟨d, hd, hc, hu⟩ := write_then_summary_counts sampleUser sampleKey
    "click" "agent" "1.1.1.1" 5 9
    [⟨"click", none, none, none, none, none, some "e1"⟩,
      ⟨"click", none, none, none, none, none, some "e1"⟩]
    rfl (by decide)
  refine ⟨d, hd, ?_, ?_⟩
  · rw [hc]; rfl
  · rw [hu]; decide

/-! ## C6: the fixed-window ingestion budget -/

/-- Running `n` same-key requests inside one window from a counter already
at `c` admits exactly those whose running count stays within the budget. -/
theorem runLimiter_same_window (k : String) (t : Nat) :
    ∀ (n : Nat) (st : LimiterState) (c : Nat),
      st.window = t / eventWindowMs →
      getCount st.counts k = c →
      (runLimiter st k (List.replicate n t)).2 =
        (List.range n).map (fun i =>
          if c + i < eventMaxRequests then none else some rateLimitedResponse)
  | 0, st, c, _, _ => by simp [runLimiter]
  | n + 1, st, c, hw, hc => by
    have hstep : limiterStep st k t =
        (⟨t / eventWindowMs, setCount st.counts k (c + 1)⟩,
          decide (c + 1 ≤ eventMaxRequests)) := by
      simp [limiterStep, hw, hc]
    have htail := runLimiter_same_window k t n
      ⟨t / eventWindowMs, setCount st.counts k (c + 1)⟩ (c + 1) rfl
      (getCount_setCount st.counts k (c + 1))
    calc (runLimiter st k (List.replicate (n + 1) t)).2
        = (if decide (c + 1 ≤ eventMaxRequests) = true then none
            else some rateLimitedResponse) ::
          (runLimiter ⟨t / eventWindowMs, setCount st.counts k (c + 1)⟩ k
            (List.replicate n t)).2 := by
          simp only [List.replicate_succ, runLimiter, hstep]
      _ = (if c + 0 < eventMaxRequests then none else some rateLimitedResponse) ::
          (List.range n).map (fun i =>
            if (c + 1) + i < eventMaxRequests then none
            else some rateLimitedResponse) := by
          rw [htail]
          simp [Nat.lt_iff_add_one_le]
      _ = (List.range (n + 1)).map (fun i =>
            if c + i < eventMaxRequests then none else some rateLimitedResponse) := by
          rw [List.range_succ_eq_map, List.map_cons, List.map_map]
          refine congrArg (_ :: ·) (List.map_congr_left ?_)
          intro i _
          have harith : c + 1 + i = c + (i + 1) := by omega
          simp [Function.comp, harith]

/-- C6: in one window of the ingestion throttle, starting from a fresh
counter for the key (the API-key header, falling back to the caller's
address), the first 1000 requests are admitted and every later request in
the window is refused; any request in a different window is admitted
again (hard reset). -/
theorem eventCollectionLimiter_budget (key : String) (t n : Nat)
    (st0 : LimiterState) (hw : st0.window = t / eventWindowMs)
    (h0 : getCount st0.counts key = 0) :
    ((runLimiter st0 key (List.replicate n t)).2 =
        (List.range n).map (fun i =>
          if i < eventMaxRequests then none else some rateLimitedResponse)) ∧
      (∀ (st : LimiterState) (t' : Nat), t' / eventWindowMs ≠ st.window →
        (limiterStep st key t').2 = true) ∧
      (∀ (s ip : String), s ≠ "" → rateLimitKey (some s) (some ip) = s) := by
  refine ⟨?_, ?_, ?_⟩
  · have h := runLimiter_same_window key t n st0 0 hw h0
    simpa using h
  · intro st t' hne
    simp [limiterStep, hne, getCount, eventMaxRequests]
  · intro s ip hs
    simp [rateLimitKey, jsOrElse, jsTruthy, hs]

/-- C6 witness: two requests in a fresh window are both admitted, a request
in a different window resets a full counter and is admitted, and the key
generator picks the API-key header over the address. -/
theorem eventCollectionLimiter_budget_witness :
    (runLimiter ⟨0, []⟩ "abc" (List.replicate 2 0)).2 = [none, none] ∧
      (limiterStep ⟨1, [("abc", 1000)]⟩ "abc" 0).2 = true ∧
      rateLimitKey (some "abc") (some "1.2.3.4") = "abc" := by
  obtain ⟨h1, h2, h3⟩ := eventCollectionLimiter_budget "abc" 0 2 ⟨0, []⟩ rfl rfl
  exact ⟨h1.trans (by decide), h2 ⟨1, [("abc", 1000)]⟩ 0 (by decide),
    h3 "abc" "1.2.3.4" (by decide)⟩

end AnalyticsEngine
